import Mathlib

set_option linter.unusedVariables false

/- Verification of the language_pipeline repository.
   Shallow embedding of gpt_langchain.py (the flattening of parsed model
   responses) and text_to_speech_and_generate_video.py (audio synthesis and
   batched video assembly), together with theorems about the stage contracts. -/

/-- A flattened vocabulary row, one per distinct meaning. Fields mirror the
dataframe columns german_word, english_word, german_sentence,
english_sentence used by the audio and video generators. -/
structure Row where
  german_word : String
  english_word : String
  german_sentence : String
  english_sentence : String
  deriving DecidableEq

/-- Dictionary access row[column] for the four text columns used by the
source code. -/
def getCol (row : Row) (column : String) : String :=
  if column = "english_word" then row.english_word
  else if column = "german_word" then row.german_word
  else if column = "english_sentence" then row.english_sentence
  else if column = "german_sentence" then row.german_sentence
  else ""

/-- Atomic sounds appearing in an audio segment. -/
inductive Tok where
  | silence (duration : Nat)
  | speech (language_code : String) (text : String)
  deriving DecidableEq

/-- An audio segment is the sequence of atomic sounds it plays. -/
abbrev AudioSegment := List Tok

/-- TextToSpeechConverterAndVideoGenerator._synthesize_text: the synthesized
narration of a text in a language, modelled as a single speech sound. -/
def synthesize_text (text : String) (language_code : String) : AudioSegment :=
  [Tok.speech language_code text]

/-- AudioSegment.silent from pydub. -/
def silent (duration : Nat) : AudioSegment :=
  [Tok.silence duration]

/-- TextToSpeechConverterAndVideoGenerator._add_silence:
silence + audio + silence. -/
def add_silence (audio : AudioSegment) (duration : Nat) : AudioSegment :=
  silent duration ++ audio ++ silent duration

/-- First narration order of _get_orders (English first). -/
def orders_en_de : List (String × String) :=
  [("en-US", "english_word"), ("de-DE", "german_word"),
   ("en-US", "english_sentence"), ("de-DE", "german_sentence")]

/-- Second narration order of _get_orders (German first). -/
def orders_de_en : List (String × String) :=
  [("de-DE", "german_word"), ("en-US", "english_word"),
   ("de-DE", "german_sentence"), ("en-US", "english_sentence")]

/-- TextToSpeechConverterAndVideoGenerator._get_orders: validates the language
mode and selects which narration orders to process. -/
def get_orders (language_mode : String) :
    Except String (List (List (String × String))) :=
  if language_mode = "EN_DE" ∨ language_mode = "DE_EN" ∨ language_mode = "BOTH" then
    if language_mode = "EN_DE" then Except.ok [orders_en_de]
    else if language_mode = "DE_EN" then Except.ok [orders_de_en]
    else Except.ok [orders_en_de, orders_de_en]
  else Except.error "Invalid language_mode. Should be EN_DE, DE_EN, or BOTH."

/-- The inner loop of generate_audio: fold the four padded per-field clips of
one order into combined_audio, starting from None. -/
def combineOrder (row : Row) (order : List (String × String)) :
    Option AudioSegment :=
  order.foldl
    (fun combined_audio lc =>
      match combined_audio with
      | none => some (add_silence (synthesize_text (getCol row lc.2) lc.1) 1500)
      | some c => some (c ++ add_silence (synthesize_text (getCol row lc.2) lc.1) 1500))
    none

/-- Audio artifact filename: row index, underscore, file index, dot mp3. -/
def audioFilename (i : Nat) (file_index : Nat) : String :=
  toString i ++ "_" ++ toString file_index ++ ".mp3"

/-- The order_idx loop of generate_audio for one row: export the combined
audio of each processed order under its filename. The file index is 0
whenever the language version is not BOTH. -/
def exportOrders (language_version : String) (i : Nat) (row : Row) :
    Nat → List (List (String × String)) →
      Except String (List (String × AudioSegment))
  | _, [] => Except.ok []
  | order_idx, order :: rest =>
    match combineOrder row order with
    | none => Except.error "AttributeError"
    | some combined_audio =>
      match exportOrders language_version i row (order_idx + 1) rest with
      | Except.error e => Except.error e
      | Except.ok more =>
        Except.ok ((audioFilename i (if language_version ≠ "BOTH" then 0 else order_idx),
          combined_audio) :: more)

/-- The row loop of generate_audio. -/
def generate_audio_rows (language_version : String)
    (process_orders : List (List (String × String))) :
    Nat → List Row → Except String (List (String × AudioSegment))
  | _, [] => Except.ok []
  | i, row :: rest =>
    match exportOrders language_version i row 0 process_orders with
    | Except.error e => Except.error e
    | Except.ok files =>
      match generate_audio_rows language_version process_orders (i + 1) rest with
      | Except.error e => Except.error e
      | Except.ok more => Except.ok (files ++ more)

/-- TextToSpeechConverterAndVideoGenerator.generate_audio: returns the list of
exported audio files as filename and content pairs, or the raised error. -/
def generate_audio (dataframe : List Row) (language_version : String) :
    Except String (List (String × AudioSegment)) :=
  match get_orders language_version with
  | Except.error e => Except.error e
  | Except.ok process_orders =>
    generate_audio_rows language_version process_orders 0 dataframe

/-- One padded per-field clip: the narration of one field surrounded by the
fixed 1500 ms silence on both sides. -/
def paddedClip (row : Row) (lc : String × String) : AudioSegment :=
  add_silence (synthesize_text (getCol row lc.2) lc.1) 1500

/-- Expected combined artifact for one narration order: the concatenation of
the four padded clips in the order of the fields. -/
def artifactOfOrder (row : Row) (order : List (String × String)) : AudioSegment :=
  (order.map (paddedClip row)).flatten

/-- The list of narration orders a valid language mode processes. -/
def processOrders (language_mode : String) : List (List (String × String)) :=
  if language_mode = "EN_DE" then [orders_en_de]
  else if language_mode = "DE_EN" then [orders_de_en]
  else [orders_en_de, orders_de_en]

/-- Expected audio artifacts generated for one row under a language mode. -/
def rowArtifacts (language_mode : String) (i : Nat) (row : Row) :
    List (String × AudioSegment) :=
  if language_mode = "BOTH" then
    [(audioFilename i 0, artifactOfOrder row orders_en_de),
     (audioFilename i 1, artifactOfOrder row orders_de_en)]
  else if language_mode = "EN_DE" then
    [(audioFilename i 0, artifactOfOrder row orders_en_de)]
  else
    [(audioFilename i 0, artifactOfOrder row orders_de_en)]

/-- Expected audio artifacts for a dataframe starting at row index i. -/
def audioSpecFrom (language_mode : String) :
    Nat → List Row → List (String × AudioSegment)
  | _, [] => []
  | i, row :: rest =>
    rowArtifacts language_mode i row ++ audioSpecFrom language_mode (i + 1) rest

/-- The narrated texts of an order, in narration sequence. -/
def narrationTexts (order : List (String × String)) (row : Row) : List String :=
  order.map (fun lc => getCol row lc.2)

/-- An audio clip as read back by AudioFileClip: only its duration is
observable to the video assembly. -/
structure AudioClip where
  duration : ℚ
  deriving DecidableEq

/-- A rendered text overlay: its caption text and its on-screen duration. -/
structure TextClip where
  text : String
  duration : ℚ
  deriving DecidableEq

/-- _generate_text_clip: renders the text and sets the duration to
audio.duration divided by duration_split. Rendering may fail for unsupported
text, modelled by the renderOk oracle. -/
def generate_text_clip (renderOk : String → Bool) (text : String)
    (audio : AudioClip) (duration_split : ℚ) : Except String TextClip :=
  if renderOk text then Except.ok ⟨text, audio.duration / duration_split⟩
  else Except.error ("RenderError: " ++ text)

/-- The orders dictionary of generate_video, keyed by language_version. -/
def videoOrder (language_version : String) : List (String × String) :=
  if language_version = "EN_DE" then orders_en_de else orders_de_en

/-- The audio filename generate_video reads for row i: the order index is 0
for EN_DE and 1 for DE_EN. -/
def videoAudioFilename (language_version : String) (i : Nat) : String :=
  audioFilename i (if language_version = "EN_DE" then 0 else 1)

/-- The 4slides loop of generate_video: one clip per narrated field, each with
duration split 4; the first rendering failure aborts. -/
def clipsForOrder (renderOk : String → Bool) (row : Row) (audio : AudioClip) :
    List (String × String) → Except String (List TextClip)
  | [] => Except.ok []
  | lc :: rest =>
    match generate_text_clip renderOk (getCol row lc.2) audio 4 with
    | Except.error e => Except.error e
    | Except.ok clip =>
      match clipsForOrder renderOk row audio rest with
      | Except.error e => Except.error e
      | Except.ok clips => Except.ok (clip :: clips)

/-- The per-row clip construction of generate_video, for either slides
format; an unknown slides format raises ValueError here, inside the loop. -/
def rowClips (renderOk : String → Bool) (slides_format : String)
    (order : List (String × String)) (row : Row) (audio : AudioClip) :
    Except String (List TextClip) :=
  if slides_format = "4slides" then
    clipsForOrder renderOk row audio order
  else if slides_format = "2slides" then
    match order with
    | o0 :: o1 :: o2 :: o3 :: _ =>
      (match generate_text_clip renderOk
          (getCol row o0.2 ++ "\n" ++ getCol row o1.2) audio 2 with
       | Except.error e => Except.error e
       | Except.ok clip1 =>
         match generate_text_clip renderOk
             (getCol row o2.2 ++ "\n" ++ getCol row o3.2) audio 2 with
         | Except.error e => Except.error e
         | Except.ok clip2 => Except.ok [clip1, clip2])
    | _ => Except.error "IndexError"
  else Except.error "Invalid slides_format. Should be 2slides or 4slides."

/-- Mutable batching state of the generate_video loop. -/
structure VidState where
  video_clips : List (List TextClip)
  audio_clips : List AudioClip
  word_count : Nat
  unique_words : List String

/-- One finished batch video file: its name, its concatenated overlay track
and its concatenated audio track. -/
structure BatchedVideo where
  filename : String
  video : List TextClip
  audio : List AudioClip
  deriving DecidableEq

/-- Video output filename as written by generate_video. -/
def combinedVideoFilename (batch_number : Nat)
    (slides_format language_version : String) : String :=
  "combined_video_" ++ toString batch_number ++ "_" ++ slides_format ++ "_" ++
    language_version ++ ".mp4"

/-- Prepend an emitted batch to the result of the remaining loop. -/
def consBatch (b : BatchedVideo) (r : List BatchedVideo × Option String) :
    List BatchedVideo × Option String :=
  (b :: r.1, r.2)

/-- The main loop of generate_video: returns the batch files written and the
exception that ended the loop early, if any. The batch is emitted when the
count of distinct german words equals words_per_video or at the last row,
and the batch number in the filename is the current row index divided by
words_per_video, plus one. -/
def genVideoLoop (audioLib : String → AudioClip) (renderOk : String → Bool)
    (words_per_video : Nat) (slides_format language_version : String)
    (total : Nat) :
    Nat → List Row → VidState → List BatchedVideo × Option String
  | _, [], _ => ([], none)
  | i, row :: rest, st =>
    match rowClips renderOk slides_format (videoOrder language_version) row
        (audioLib (videoAudioFilename language_version i)) with
    | Except.error e => ([], some e)
    | Except.ok clips =>
      if (if row.german_word ∈ st.unique_words then st.word_count
          else st.word_count + 1) = words_per_video ∨ i = total - 1 then
        consBatch
          ⟨combinedVideoFilename (i / words_per_video + 1) slides_format
              language_version,
           (st.video_clips ++ [clips]).flatten,
           st.audio_clips ++ [audioLib (videoAudioFilename language_version i)]⟩
          (genVideoLoop audioLib renderOk words_per_video slides_format
            language_version total (i + 1) rest ⟨[], [], 0, []⟩)
      else
        genVideoLoop audioLib renderOk words_per_video slides_format
          language_version total (i + 1) rest
          ⟨st.video_clips ++ [clips],
           st.audio_clips ++ [audioLib (videoAudioFilename language_version i)],
           if row.german_word ∈ st.unique_words then st.word_count
           else st.word_count + 1,
           if row.german_word ∈ st.unique_words then st.unique_words
           else st.unique_words ++ [row.german_word]⟩

/-- TextToSpeechConverterAndVideoGenerator.generate_video. -/
def generate_video (audioLib : String → AudioClip) (renderOk : String → Bool)
    (dataframe : List Row) (words_per_video : Nat)
    (slides_format language_version : String) :
    List BatchedVideo × Option String :=
  if language_version = "EN_DE" ∨ language_version = "DE_EN" then
    genVideoLoop audioLib renderOk words_per_video slides_format
      language_version dataframe.length 0 dataframe ⟨[], [], 0, []⟩
  else ([], some "Invalid language_version. Should be EN_DE or DE_EN.")

/-- Expected overlay clips for one row when every rendering succeeds. -/
def rowClipsOk (slides_format : String) (order : List (String × String))
    (row : Row) (audio : AudioClip) : List TextClip :=
  if slides_format = "4slides" then
    order.map (fun lc => ⟨getCol row lc.2, audio.duration / 4⟩)
  else
    match order with
    | o0 :: o1 :: o2 :: o3 :: _ =>
      [⟨getCol row o0.2 ++ "\n" ++ getCol row o1.2, audio.duration / 2⟩,
       ⟨getCol row o2.2 ++ "\n" ++ getCol row o3.2, audio.duration / 2⟩]
    | _ => []

/-- The audio clip generate_video attaches for an indexed row. -/
def rowAudioOf (audioLib : String → AudioClip) (language_version : String)
    (p : Nat × Row) : AudioClip :=
  audioLib (videoAudioFilename language_version p.1)

/-- The video segment generate_video builds for an indexed row. -/
def rowSegOf (audioLib : String → AudioClip)
    (slides_format language_version : String) (p : Nat × Row) : List TextClip :=
  rowClipsOk slides_format (videoOrder language_version) p.2
    (rowAudioOf audioLib language_version p)

/-- The batch video emitted for one run of indexed rows: concatenated video
track, concatenated audio track in the same row order, and the filename
derived from the index of the last row of the run. -/
def toBatch (audioLib : String → AudioClip)
    (slides_format language_version : String) (words_per_video : Nat)
    (part : List (Nat × Row)) : BatchedVideo :=
  ⟨combinedVideoFilename ((part.map Prod.fst).getLastD 0 / words_per_video + 1)
      slides_format language_version,
   (part.map (rowSegOf audioLib slides_format language_version)).flatten,
   part.map (rowAudioOf audioLib language_version)⟩

/-- Batching algorithm as the specification states it: iterate rows in order
keeping the accumulated rows of the current batch and the set of distinct
source words seen in it; when the distinct word count reaches wordsPerVideo
the batch is closed and the accumulators are reset; when the row sequence is
exhausted the final partial batch is still emitted, never dropped. -/
def assembleBatchesAux (wordsPerVideo : Nat) :
    Nat → List Row → List (Nat × Row) → List String → List (List (Nat × Row))
  | _, [], segAcc, _ => if segAcc = [] then [] else [segAcc]
  | i, row :: rest, segAcc, wordSet =>
    if (if row.german_word ∈ wordSet then wordSet
        else wordSet ++ [row.german_word]).length = wordsPerVideo then
      (segAcc ++ [(i, row)]) :: assembleBatchesAux wordsPerVideo (i + 1) rest [] []
    else
      assembleBatchesAux wordsPerVideo (i + 1) rest (segAcc ++ [(i, row)])
        (if row.german_word ∈ wordSet then wordSet
         else wordSet ++ [row.german_word])

/-- Partition of the indexed rows into batch runs. -/
def assembleBatches (wordsPerVideo : Nat) (rows : List Row) :
    List (List (Nat × Row)) :=
  assembleBatchesAux wordsPerVideo 0 rows [] []

/-- One parsed model response: the dict of the four lists. -/
structure ParsedRecord where
  german_word : List String
  english_word : List String
  german_sentence : List String
  english_sentence : List String
  deriving DecidableEq

/-- The body of the flattening loop of _create_dataframe_from_list_of_dict for
one item: index the four lists at each given index, raising IndexError at the
first missing element, in the dict construction order of the source. -/
def takeRows (item : ParsedRecord) : List Nat → Except String (List Row)
  | [] => Except.ok []
  | i :: is =>
    match item.german_word[i]? with
    | none => Except.error "IndexError"
    | some gw =>
      match item.english_word[i]? with
      | none => Except.error "IndexError"
      | some ew =>
        match item.german_sentence[i]? with
        | none => Except.error "IndexError"
        | some gs =>
          match item.english_sentence[i]? with
          | none => Except.error "IndexError"
          | some es =>
            match takeRows item is with
            | Except.error e => Except.error e
            | Except.ok rs => Except.ok (⟨gw, ew, gs, es⟩ :: rs)

/-- Rows contributed by one item: num_entries is the length of the
german_word list, and the loop runs over range num_entries. -/
def itemRows (item : ParsedRecord) : Except String (List Row) :=
  takeRows item (List.range item.german_word.length)

/-- SentenceGenerator._create_dataframe_from_list_of_dict: flattens the list
of parsed records into flat rows; an IndexError aborts the whole call, so
nothing is returned for any record in that case. -/
def create_dataframe_from_list_of_dict : List ParsedRecord → Except String (List Row)
  | [] => Except.ok []
  | item :: rest =>
    match itemRows item with
    | Except.error e => Except.error e
    | Except.ok rows =>
      match create_dataframe_from_list_of_dict rest with
      | Except.error e => Except.error e
      | Except.ok more => Except.ok (rows ++ more)

/-- Expected rows of one record: row i takes the ith element of each of the
four lists, with i ranging over the indices of the source word list. -/
def specRows (item : ParsedRecord) : List Row :=
  (List.range item.german_word.length).map (fun i =>
    ⟨item.german_word.getD i "", item.english_word.getD i "",
     item.german_sentence.getD i "", item.english_sentence.getD i ""⟩)

/-- Expected flattening of a record list: concatenation in record order. -/
def flatRows (items : List ParsedRecord) : List Row :=
  (items.map specRows).flatten

/-- Sample row constructor for concrete evaluations. -/
def rowW (w : String) : Row := ⟨w, "meaning", "Satz", "Sentence"⟩

/-- A concrete sample row. -/
def sampleRow : Row :=
  ⟨"Haus", "house", "Das Haus ist gross.", "The house is big."⟩

/-- A concrete audio library assigning every filename a clip of duration 1. -/
def audioLibC : String → AudioClip := fun _ => ⟨1⟩

/-- A rendering oracle that always succeeds. -/
def renderTrue : String → Bool := fun _ => true

/-- A rendering oracle that fails exactly on the text bad. -/
def renderBadC : String → Bool := fun s => !(s == "bad")

/-- A row whose english word fails to render under renderBadC. -/
def rowFailC : Row := ⟨"w1", "bad", "gs1", "es1"⟩

/-- A row all of whose texts render fine under renderBadC. -/
def rowOkC : Row := ⟨"w2", "e2", "gs2", "es2"⟩

/-- Five rows over the words A, A, B, C, D. -/
def dfC1 : List Row := [rowW "A", rowW "A", rowW "B", rowW "C", rowW "D"]

/-- Four rows over the words A, A, B, C. -/
def dfC3 : List Row := [rowW "A", rowW "A", rowW "B", rowW "C"]

/-- A parsed record whose english word list is longer than the german one. -/
def itemC4 : ParsedRecord :=
  ⟨["Wort"], ["meaning1", "meaning2"], ["Satz"], ["Sentence"]⟩

/-- A parsed record with list lengths 2, 3, 2, 2. -/
def itemC5 : ParsedRecord := ⟨["a", "b"], ["x", "y", "z"], ["s", "t"], ["u", "v"]⟩

/-- A parsed record whose english word list is shorter than the german one. -/
def itemC5b : ParsedRecord := ⟨["a", "b"], ["x"], ["s", "t"], ["u", "v"]⟩

/-- A valid parsed record with two meanings. -/
def itemW1 : ParsedRecord :=
  ⟨["g1", "g2"], ["e1", "e2"], ["s1", "s2"], ["t1", "t2"]⟩

/-- A valid parsed record with one meaning. -/
def itemW2 : ParsedRecord := ⟨["h"], ["f"], ["u"], ["v"]⟩

lemma get?_some_getD (l : List String) : ∀ (i : Nat), i < l.length →
    l[i]? = some (l.getD i "") := by
  induction l with
  | nil => intro i h; simp at h
  | cons a t ih =>
    intro i h
    cases i with
    | zero => simp
    | succ j =>
      rw [List.getElem?_cons_succ, List.getD_cons_succ]
      exact ih j (by simpa using h)

lemma get?_none_of_le (l : List String) : ∀ (i : Nat), l.length ≤ i →
    l[i]? = none := by
  induction l with
  | nil => intro i h; simp
  | cons a t ih =>
    intro i h
    cases i with
    | zero => simp at h
    | succ j =>
      rw [List.getElem?_cons_succ]
      exact ih j (by simpa using h)

lemma takeRows_ok (item : ParsedRecord) : ∀ (is : List Nat),
    (∀ i ∈ is, i < item.german_word.length ∧ i < item.english_word.length ∧
      i < item.german_sentence.length ∧ i < item.english_sentence.length) →
    takeRows item is = Except.ok (is.map (fun i =>
      ⟨item.german_word.getD i "", item.english_word.getD i "",
       item.german_sentence.getD i "", item.english_sentence.getD i ""⟩)) := by
  intro is
  induction is with
  | nil => intro h; rfl
  | cons j t ih =>
    intro h
    obtain ⟨h1, h2, h3, h4⟩ := h j (List.mem_cons_self j t)
    simp only [takeRows, get?_some_getD _ _ h1, get?_some_getD _ _ h2,
      get?_some_getD _ _ h3, get?_some_getD _ _ h4,
      ih (fun i hi => h i (List.mem_cons_of_mem j hi)), List.map_cons]

lemma takeRows_err (item : ParsedRecord) : ∀ (is : List Nat),
    (∃ i ∈ is, item.english_word.length ≤ i ∨ item.german_sentence.length ≤ i ∨
      item.english_sentence.length ≤ i) →
    takeRows item is = Except.error "IndexError" := by
  intro is
  induction is with
  | nil => intro h; simp at h
  | cons j t ih =>
    intro h
    obtain ⟨i, hi, hbad⟩ := h
    rcases List.mem_cons.mp hi with rfl | hmem
    · cases hg : item.german_word[i]? with
      | none => simp [takeRows, hg]
      | some gw =>
        rcases hbad with hb | hb | hb
        · simp [takeRows, hg, get?_none_of_le _ _ hb]
        · cases he : item.english_word[i]? with
          | none => simp [takeRows, hg, he]
          | some ew => simp [takeRows, hg, he, get?_none_of_le _ _ hb]
        · cases he : item.english_word[i]? with
          | none => simp [takeRows, hg, he]
          | some ew =>
            cases hgs : item.german_sentence[i]? with
            | none => simp [takeRows, hg, he, hgs]
            | some gs => simp [takeRows, hg, he, hgs, get?_none_of_le _ _ hb]
    · have htail := ih ⟨i, hmem, hbad⟩
      cases hg : item.german_word[j]? with
      | none => simp [takeRows, hg]
      | some gw =>
        cases he : item.english_word[j]? with
        | none => simp [takeRows, hg, he]
        | some ew =>
          cases hgs : item.german_sentence[j]? with
          | none => simp [takeRows, hg, he, hgs]
          | some gs =>
            cases hes : item.english_sentence[j]? with
            | none => simp [takeRows, hg, he, hgs, hes]
            | some es => simp [takeRows, hg, he, hgs, hes, htail]

lemma itemRows_ok (item : ParsedRecord)
    (h2 : item.german_word.length ≤ item.english_word.length)
    (h3 : item.german_word.length ≤ item.german_sentence.length)
    (h4 : item.german_word.length ≤ item.english_sentence.length) :
    itemRows item = Except.ok (specRows item) := by
  unfold itemRows specRows
  exact takeRows_ok item (List.range item.german_word.length)
    (fun i hi => by
      have hlt := List.mem_range.mp hi
      exact ⟨hlt, lt_of_lt_of_le hlt h2, lt_of_lt_of_le hlt h3,
        lt_of_lt_of_le hlt h4⟩)

lemma itemRows_err (item : ParsedRecord)
    (h : item.english_word.length < item.german_word.length ∨
      item.german_sentence.length < item.german_word.length ∨
      item.english_sentence.length < item.german_word.length) :
    itemRows item = Except.error "IndexError" := by
  unfold itemRows
  apply takeRows_err
  rcases h with h | h | h
  · exact ⟨item.english_word.length, List.mem_range.mpr h, Or.inl le_rfl⟩
  · exact ⟨item.german_sentence.length, List.mem_range.mpr h,
      Or.inr (Or.inl le_rfl)⟩
  · exact ⟨item.english_sentence.length, List.mem_range.mpr h,
      Or.inr (Or.inr le_rfl)⟩

lemma create_df_ok : ∀ (items : List ParsedRecord),
    (∀ it ∈ items, it.german_word.length ≤ it.english_word.length ∧
      it.german_word.length ≤ it.german_sentence.length ∧
      it.german_word.length ≤ it.english_sentence.length) →
    create_dataframe_from_list_of_dict items = Except.ok (flatRows items) := by
  intro items
  induction items with
  | nil => intro h; rfl
  | cons item rest ih =>
    intro h
    obtain ⟨h2, h3, h4⟩ := h item (List.mem_cons_self item rest)
    simp [create_dataframe_from_list_of_dict, itemRows_ok item h2 h3 h4,
      ih (fun it hit => h it (List.mem_cons_of_mem item hit)), flatRows]

lemma get_orders_valid (mode : String)
    (h : mode = "EN_DE" ∨ mode = "DE_EN" ∨ mode = "BOTH") :
    get_orders mode = Except.ok (processOrders mode) := by
  rcases h with rfl | rfl | rfl <;> rfl

lemma exportOrders_mode (mode : String)
    (h : mode = "EN_DE" ∨ mode = "DE_EN" ∨ mode = "BOTH") (i : Nat) (row : Row) :
    exportOrders mode i row 0 (processOrders mode) =
      Except.ok (rowArtifacts mode i row) := by
  rcases h with rfl | rfl | rfl <;> rfl

lemma generate_audio_rows_spec (mode : String)
    (h : mode = "EN_DE" ∨ mode = "DE_EN" ∨ mode = "BOTH") :
    ∀ (rows : List Row) (i : Nat),
    generate_audio_rows mode (processOrders mode) i rows =
      Except.ok (audioSpecFrom mode i rows) := by
  intro rows
  induction rows with
  | nil => intro i; rfl
  | cons row rest ih =>
    intro i
    simp [generate_audio_rows, exportOrders_mode mode h i row, ih (i + 1),
      audioSpecFrom]

lemma clipsForOrder_ok (renderOk : String → Bool) (hr : ∀ s, renderOk s = true)
    (row : Row) (audio : AudioClip) : ∀ (order : List (String × String)),
    clipsForOrder renderOk row audio order =
      Except.ok (order.map (fun lc =>
        (⟨getCol row lc.2, audio.duration / 4⟩ : TextClip))) := by
  intro order
  induction order with
  | nil => rfl
  | cons lc rest ih => simp [clipsForOrder, generate_text_clip, hr, ih]

lemma rowClips_four (renderOk : String → Bool) (hr : ∀ s, renderOk s = true)
    (order : List (String × String)) (row : Row) (audio : AudioClip) :
    rowClips renderOk "4slides" order row audio =
      Except.ok (order.map (fun lc =>
        (⟨getCol row lc.2, audio.duration / 4⟩ : TextClip))) := by
  unfold rowClips
  rw [if_pos rfl]
  exact clipsForOrder_ok renderOk hr row audio order

lemma rowClips_two (renderOk : String → Bool) (hr : ∀ s, renderOk s = true)
    (o0 o1 o2 o3 : String × String) (rest : List (String × String))
    (row : Row) (audio : AudioClip) :
    rowClips renderOk "2slides" (o0 :: o1 :: o2 :: o3 :: rest) row audio =
      Except.ok [⟨getCol row o0.2 ++ "\n" ++ getCol row o1.2, audio.duration / 2⟩,
        ⟨getCol row o2.2 ++ "\n" ++ getCol row o3.2, audio.duration / 2⟩] := by
  unfold rowClips
  rw [if_neg (by decide), if_pos rfl]
  simp [generate_text_clip, hr]

lemma rowClips_ok (renderOk : String → Bool) (hr : ∀ s, renderOk s = true)
    (fmt lv : String) (hfmt : fmt = "2slides" ∨ fmt = "4slides")
    (hlv : lv = "EN_DE" ∨ lv = "DE_EN") (row : Row) (audio : AudioClip) :
    rowClips renderOk fmt (videoOrder lv) row audio =
      Except.ok (rowClipsOk fmt (videoOrder lv) row audio) := by
  rcases hfmt with rfl | rfl
  · rcases hlv with rfl | rfl
    · exact rowClips_two renderOk hr _ _ _ _ _ row audio
    · exact rowClips_two renderOk hr _ _ _ _ _ row audio
  · rcases hlv with rfl | rfl
    · exact rowClips_four renderOk hr _ row audio
    · exact rowClips_four renderOk hr _ row audio

lemma getLastD_concat_nat : ∀ (l : List Nat) (p d : Nat),
    (l ++ [p]).getLastD d = p := by
  intro l
  induction l with
  | nil => intro p d; rfl
  | cons a t ih =>
    intro p d
    rw [List.cons_append, List.getLastD_cons]
    exact ih p a

lemma lastIdx_concat (l : List (Nat × Row)) (p : Nat × Row) :
    ((l ++ [p]).map Prod.fst).getLastD 0 = p.1 := by
  rw [List.map_append]
  exact getLastD_concat_nat (l.map Prod.fst) p.1 0

lemma toBatch_concat (audioLib : String → AudioClip) (fmt lv : String)
    (wpv : Nat) (segAcc : List (Nat × Row)) (i : Nat) (row : Row) :
    toBatch audioLib fmt lv wpv (segAcc ++ [(i, row)]) =
      ⟨combinedVideoFilename (i / wpv + 1) fmt lv,
       (segAcc.map (rowSegOf audioLib fmt lv) ++
         [rowClipsOk fmt (videoOrder lv) row
           (audioLib (videoAudioFilename lv i))]).flatten,
       segAcc.map (rowAudioOf audioLib lv) ++
         [audioLib (videoAudioFilename lv i)]⟩ := by
  unfold toBatch
  rw [lastIdx_concat, List.map_append, List.map_append]
  rfl

lemma genVideoLoop_spec (audioLib : String → AudioClip) (renderOk : String → Bool)
    (hr : ∀ s, renderOk s = true) (wpv : Nat) (fmt lv : String)
    (hfmt : fmt = "2slides" ∨ fmt = "4slides")
    (hlv : lv = "EN_DE" ∨ lv = "DE_EN") :
    ∀ (rows : List Row) (i total : Nat), i + rows.length = total →
    ∀ (segAcc : List (Nat × Row)) (wordSet : List String),
      (segAcc = [] ∨ rows ≠ []) →
      genVideoLoop audioLib renderOk wpv fmt lv total i rows
          ⟨segAcc.map (rowSegOf audioLib fmt lv),
           segAcc.map (rowAudioOf audioLib lv), wordSet.length, wordSet⟩ =
        ((assembleBatchesAux wpv i rows segAcc wordSet).map
          (toBatch audioLib fmt lv wpv), none) := by
  intro rows
  induction rows with
  | nil =>
    intro i total htot segAcc wordSet hsafe
    rcases hsafe with rfl | hne
    · simp [genVideoLoop, assembleBatchesAux]
    · exact absurd rfl hne
  | cons row rest ih =>
    intro i total htot segAcc wordSet hsafe
    have hclips := rowClips_ok renderOk hr fmt lv hfmt hlv row
      (audioLib (videoAudioFilename lv i))
    simp only [genVideoLoop, assembleBatchesAux, hclips]
    have hlen : (if row.german_word ∈ wordSet then wordSet.length
        else wordSet.length + 1) =
        (if row.german_word ∈ wordSet then wordSet
         else wordSet ++ [row.german_word]).length := by
      by_cases hmem : row.german_word ∈ wordSet <;> simp [hmem]
    rw [hlen]
    by_cases hwc : (if row.german_word ∈ wordSet then wordSet
        else wordSet ++ [row.german_word]).length = wpv
    · rw [if_pos (Or.inl hwc), if_pos hwc]
      have hrec := ih (i + 1) total (by simp at htot; omega) [] [] (Or.inl rfl)
      simp only [List.map_nil, List.length_nil] at hrec
      rw [hrec]
      simp only [consBatch, List.map_cons, toBatch_concat]
    · by_cases hlast : i = total - 1
      · have hrest : rest = [] := by
          cases rest with
          | nil => rfl
          | cons a t => simp at htot; omega
        subst hrest
        rw [if_pos (Or.inr hlast), if_neg hwc]
        have hne2 : segAcc ++ [(i, row)] ≠ [] := by simp
        simp only [genVideoLoop, consBatch, assembleBatchesAux, if_neg hne2,
          List.map_cons, List.map_nil, toBatch_concat]
      · have hne : rest ≠ [] := by
          intro hr0
          subst hr0
          simp at htot
          omega
        rw [if_neg (by push_neg; exact ⟨hwc, hlast⟩), if_neg hwc]
        have hrec := ih (i + 1) total (by simp at htot; omega)
          (segAcc ++ [(i, row)])
          (if row.german_word ∈ wordSet then wordSet
           else wordSet ++ [row.german_word]) (Or.inr hne)
        rw [← hrec]
        congr 1
        simp [List.map_append, rowSegOf, rowAudioOf]

/-- Claim C1: generate_video batches rows exactly as the batching algorithm of
the specification does: it iterates rows in order maintaining the set of
distinct source words of the current batch, emits one batch exactly when the
distinct word count reaches wordsPerVideo or the rows are exhausted, resets
the segment list, audio list and word set after each emit, and still emits the
final partial batch. In particular with wordsPerVideo 3 over rows with words
A, A, B, C, D the first batch closes after the row for C, holding 4 rows, and
the final batch holds the single remaining row. -/
theorem C1_generate_video_batching (audioLib : String → AudioClip)
    (renderOk : String → Bool) (hr : ∀ s, renderOk s = true) (df : List Row)
    (wpv : Nat) (hw : 0 < wpv) (fmt lv : String)
    (hfmt : fmt = "2slides" ∨ fmt = "4slides")
    (hlv : lv = "EN_DE" ∨ lv = "DE_EN") :
    generate_video audioLib renderOk df wpv fmt lv =
      ((assembleBatches wpv df).map (toBatch audioLib fmt lv wpv), none) ∧
    (assembleBatches 3 dfC1).map List.length = [4, 1] := by
  constructor
  · have h := genVideoLoop_spec audioLib renderOk hr wpv fmt lv hfmt hlv df 0
      df.length (by omega) [] [] (Or.inl rfl)
    simp only [List.map_nil, List.length_nil] at h
    unfold generate_video assembleBatches
    rw [if_pos hlv, h]
  · decide

/-- Witness for C1 at a concrete input: five rows over words A, A, B, C, D,
wordsPerVideo 3, format 4slides, language EN_DE. -/
theorem C1_witness :
    generate_video audioLibC renderTrue dfC1 3 "4slides" "EN_DE" =
      ((assembleBatches 3 dfC1).map (toBatch audioLibC "4slides" "EN_DE" 3),
        none) ∧
    (assembleBatches 3 dfC1).map List.length = [4, 1] :=
  C1_generate_video_batching audioLibC renderTrue (fun _ => rfl) dfC1 3
    (by decide) "4slides" "EN_DE" (Or.inr rfl) (Or.inl rfl)

/-- Claim C2 (code bug): cross-stage key agreement fails for mode DE_EN.
generate_audio under DE_EN writes only the file keyed with order index 0 for
row 0, while generate_video under DE_EN reads the file keyed with order
index 1 for row 0, a key generate_audio never produced in that mode. -/
theorem C2_key_mismatch :
    (generate_audio [sampleRow] "DE_EN").map (fun files => files.map Prod.fst) =
      Except.ok ["0_0.mp3"] ∧
    videoAudioFilename "DE_EN" 0 = "0_1.mp3" ∧
    "0_1.mp3" ∉ ["0_0.mp3"] :=
  ⟨rfl, rfl, by decide⟩

/-- Claim C3 counterexample: with wordsPerVideo 2 over four rows with words
A, A, B, C, the code emits two batches and names both of them with batch
number 2, so the first emitted batch is not numbered 1 and two distinct
batches of one run share a filename. -/
theorem C3_counterexample :
    (generate_video audioLibC renderTrue dfC3 2 "2slides" "EN_DE").1.map
        BatchedVideo.filename =
      ["combined_video_2_2slides_EN_DE.mp4",
       "combined_video_2_2slides_EN_DE.mp4"] ∧
    ¬ ((generate_video audioLibC renderTrue dfC3 2 "2slides" "EN_DE").1.map
        BatchedVideo.filename).Nodup :=
  ⟨rfl, by decide⟩

/-- Claim C3 amended: every emitted batch is named with the batch number
computed as the index of the last row of the batch divided by wordsPerVideo,
plus one, rather than with a sequential batch counter; the numbering is
sequential from 1 only when no batch spans extra rows of repeated words. -/
theorem C3_filename_rule (audioLib : String → AudioClip)
    (renderOk : String → Bool) (hr : ∀ s, renderOk s = true) (df : List Row)
    (wpv : Nat) (hw : 0 < wpv) (fmt lv : String)
    (hfmt : fmt = "2slides" ∨ fmt = "4slides")
    (hlv : lv = "EN_DE" ∨ lv = "DE_EN") :
    (generate_video audioLib renderOk df wpv fmt lv).1.map
        BatchedVideo.filename =
      (assembleBatches wpv df).map (fun part =>
        combinedVideoFilename ((part.map Prod.fst).getLastD 0 / wpv + 1)
          fmt lv) := by
  have h := genVideoLoop_spec audioLib renderOk hr wpv fmt lv hfmt hlv df 0
    df.length (by omega) [] [] (Or.inl rfl)
  simp only [List.map_nil, List.length_nil] at h
  unfold generate_video assembleBatches
  rw [if_pos hlv, h]
  simp only [List.map_map]
  rfl

/-- Witness for the amended C3 at a concrete input. -/
theorem C3_witness :
    (generate_video audioLibC renderTrue dfC3 2 "2slides" "EN_DE").1.map
        BatchedVideo.filename =
      (assembleBatches 2 dfC3).map (fun part =>
        combinedVideoFilename ((part.map Prod.fst).getLastD 0 / 2 + 1)
          "2slides" "EN_DE") :=
  C3_filename_rule audioLibC renderTrue (fun _ => rfl) dfC3 2 (by decide)
    "2slides" "EN_DE" (Or.inl rfl) (Or.inl rfl)

/-- Claim C4 counterexample: a parsed response whose english word list is
longer than its german word list, so the four lists disagree in length, is
flattened successfully into one row with the extra meaning silently dropped;
no error of any kind is raised and a flat row is produced. -/
theorem C4_counterexample :
    create_dataframe_from_list_of_dict [itemC4] =
      Except.ok [⟨"Wort", "meaning1", "Satz", "Sentence"⟩] ∧
    itemC4.english_word.length ≠ itemC4.german_word.length :=
  ⟨rfl, by decide⟩

/-- Claim C4 amended: the code never validates list lengths and defines no
GenerationError. When the source word list is strictly shorter than the
target word list and the two sentence lists are at least as long, the
response is flattened successfully, silently truncated to the length of the
source word list. -/
theorem C4_truncation_behavior (item : ParsedRecord)
    (hlt : item.german_word.length < item.english_word.length)
    (hgs : item.german_word.length ≤ item.german_sentence.length)
    (hes : item.german_word.length ≤ item.english_sentence.length) :
    create_dataframe_from_list_of_dict [item] = Except.ok (specRows item) ∧
    (specRows item).length = item.german_word.length := by
  constructor
  · simp [create_dataframe_from_list_of_dict,
      itemRows_ok item (le_of_lt hlt) hgs hes]
  · simp [specRows]

/-- Witness for the amended C4 at a concrete input. -/
theorem C4_witness :
    create_dataframe_from_list_of_dict [itemC4] = Except.ok (specRows itemC4) ∧
    (specRows itemC4).length = itemC4.german_word.length :=
  C4_truncation_behavior itemC4 (by decide) (by decide) (by decide)

/-- Claim C5 counterexample: a record with sequence lengths 2, 3, 2, 2, which
are not all equal, is flattened without any SchemaMismatchError: two rows are
emitted and the extra english word is silently dropped. -/
theorem C5_counterexample :
    create_dataframe_from_list_of_dict [itemC5] =
      Except.ok [⟨"a", "x", "s", "u"⟩, ⟨"b", "y", "t", "v"⟩] ∧
    itemC5.english_word.length ≠ itemC5.german_word.length :=
  ⟨rfl, by decide⟩

/-- Claim C5 amended: flatten performs no validation before emitting. A record
whose other three lists are at least as long as the source word list is
flattened successfully into exactly one row per source list index, silently
truncating over-long lists; only a record with some other list strictly
shorter than the source word list fails, and it fails with an IndexError
raised during emission, not with a SchemaMismatchError raised up front. -/
theorem C5_flatten_characterization (item : ParsedRecord) :
    ((item.german_word.length ≤ item.english_word.length ∧
      item.german_word.length ≤ item.german_sentence.length ∧
      item.german_word.length ≤ item.english_sentence.length) →
      create_dataframe_from_list_of_dict [item] = Except.ok (specRows item)) ∧
    ((item.english_word.length < item.german_word.length ∨
      item.german_sentence.length < item.german_word.length ∨
      item.english_sentence.length < item.german_word.length) →
      create_dataframe_from_list_of_dict [item] =
        Except.error "IndexError") := by
  constructor
  · rintro ⟨h2, h3, h4⟩
    simp [create_dataframe_from_list_of_dict, itemRows_ok item h2 h3 h4]
  · intro h
    simp [create_dataframe_from_list_of_dict, itemRows_err item h]

/-- Witness for the amended C5: one record that truncates successfully and one
record that fails with IndexError. -/
theorem C5_witness :
    create_dataframe_from_list_of_dict [itemC5] = Except.ok (specRows itemC5) ∧
    create_dataframe_from_list_of_dict [itemC5b] =
      Except.error "IndexError" :=
  ⟨(C5_flatten_characterization itemC5).1 (by decide),
   (C5_flatten_characterization itemC5b).2 (by decide)⟩

/-- Claim C6: on valid input, every record whose four lists all have the equal
length N of at least 1 is flattened into exactly N rows, row i taking the ith
element of each list, and the output is the concatenation of the per-record
rows in input record order. -/
theorem C6_flatten_correct (items : List ParsedRecord)
    (h : ∀ it ∈ items, it.english_word.length = it.german_word.length ∧
      it.german_sentence.length = it.german_word.length ∧
      it.english_sentence.length = it.german_word.length ∧
      1 ≤ it.german_word.length) :
    create_dataframe_from_list_of_dict items = Except.ok (flatRows items) ∧
    (∀ it ∈ items, (specRows it).length = it.german_word.length) ∧
    (∀ l1 l2, items = l1 ++ l2 → flatRows items = flatRows l1 ++ flatRows l2) := by
  refine ⟨?_, ?_, ?_⟩
  · exact create_df_ok items (fun it hit => by
      obtain ⟨h2, h3, h4, _⟩ := h it hit
      exact ⟨le_of_eq h2.symm, le_of_eq h3.symm, le_of_eq h4.symm⟩)
  · intro it hit
    simp [specRows]
  · rintro l1 l2 rfl
    simp [flatRows]

/-- Witness for C6 at a concrete two-record input. -/
theorem C6_witness :
    create_dataframe_from_list_of_dict [itemW1, itemW2] =
      Except.ok (flatRows [itemW1, itemW2]) ∧
    (∀ it ∈ [itemW1, itemW2], (specRows it).length = it.german_word.length) ∧
    (∀ l1 l2, [itemW1, itemW2] = l1 ++ l2 →
      flatRows [itemW1, itemW2] = flatRows l1 ++ flatRows l2) :=
  C6_flatten_correct [itemW1, itemW2] (by decide)

/-- Claim C7: for every row and audio artifact, the 4slides format produces
exactly 4 overlays, each with on-screen duration equal to the artifact
duration divided by 4, and the 2slides format produces exactly 2 overlays,
each with duration the artifact duration divided by 2; in both formats the
overlay durations sum exactly to the artifact duration. -/
theorem C7_overlay_durations (renderOk : String → Bool)
    (hr : ∀ s, renderOk s = true) (lv : String)
    (hlv : lv = "EN_DE" ∨ lv = "DE_EN") (row : Row) (audio : AudioClip) :
    (∃ clips, rowClips renderOk "4slides" (videoOrder lv) row audio =
        Except.ok clips ∧ clips.length = 4 ∧
      (∀ c ∈ clips, c.duration = audio.duration / 4) ∧
      (clips.map TextClip.duration).sum = audio.duration) ∧
    (∃ clips, rowClips renderOk "2slides" (videoOrder lv) row audio =
        Except.ok clips ∧ clips.length = 2 ∧
      (∀ c ∈ clips, c.duration = audio.duration / 2) ∧
      (clips.map TextClip.duration).sum = audio.duration) := by
  constructor
  · refine ⟨_, rowClips_four renderOk hr (videoOrder lv) row audio, ?_, ?_, ?_⟩
    · rcases hlv with rfl | rfl <;> rfl
    · intro c hc
      obtain ⟨lc, hmem, rfl⟩ := List.mem_map.mp hc
      rfl
    · rcases hlv with rfl | rfl <;>
        · simp [videoOrder, orders_en_de, orders_de_en]
          ring
  · rcases hlv with rfl | rfl
    · refine ⟨_, rowClips_two renderOk hr _ _ _ _ _ row audio, rfl, ?_, ?_⟩
      · intro c hc
        simp only [List.mem_cons, List.not_mem_nil, or_false] at hc
        rcases hc with rfl | rfl <;> rfl
      · simp
    · refine ⟨_, rowClips_two renderOk hr _ _ _ _ _ row audio, rfl, ?_, ?_⟩
      · intro c hc
        simp only [List.mem_cons, List.not_mem_nil, or_false] at hc
        rcases hc with rfl | rfl <;> rfl
      · simp

/-- Witness for C7 at a concrete input. -/
theorem C7_witness :
    (∃ clips, rowClips renderTrue "4slides" (videoOrder "EN_DE") sampleRow
        ⟨4⟩ = Except.ok clips ∧ clips.length = 4 ∧
      (∀ c ∈ clips, c.duration = (⟨4⟩ : AudioClip).duration / 4) ∧
      (clips.map TextClip.duration).sum = (⟨4⟩ : AudioClip).duration) ∧
    (∃ clips, rowClips renderTrue "2slides" (videoOrder "EN_DE") sampleRow
        ⟨4⟩ = Except.ok clips ∧ clips.length = 2 ∧
      (∀ c ∈ clips, c.duration = (⟨4⟩ : AudioClip).duration / 2) ∧
      (clips.map TextClip.duration).sum = (⟨4⟩ : AudioClip).duration) :=
  C7_overlay_durations renderTrue (fun _ => rfl) "EN_DE" (Or.inl rfl)
    sampleRow ⟨4⟩

/-- Claim C8: under a valid language mode, generate_audio produces for each
row exactly one audio artifact per processed order, two for BOTH and one for
a single mode, each artifact being the concatenation of the four padded
per-field clips in the fixed order of the mode, each clip padded with the
fixed 1500 ms silence before and after; and the two orderings narrate the
same underlying texts, as a permutation of one another. -/
theorem C8_audio_shape (df : List Row) (mode : String)
    (h : mode = "EN_DE" ∨ mode = "DE_EN" ∨ mode = "BOTH") :
    generate_audio df mode = Except.ok (audioSpecFrom mode 0 df) ∧
    (∀ i row, (rowArtifacts mode i row).length =
      if mode = "BOTH" then 2 else 1) ∧
    (∀ row, List.Perm (narrationTexts orders_de_en row)
      (narrationTexts orders_en_de row)) := by
  refine ⟨?_, ?_, ?_⟩
  · unfold generate_audio
    rw [get_orders_valid mode h]
    exact generate_audio_rows_spec mode h df 0
  · intro i row
    rcases h with rfl | rfl | rfl <;> rfl
  · intro row
    show List.Perm
      [getCol row "german_word", getCol row "english_word",
       getCol row "german_sentence", getCol row "english_sentence"]
      [getCol row "english_word", getCol row "german_word",
       getCol row "english_sentence", getCol row "german_sentence"]
    exact (List.Perm.cons _ (List.Perm.cons _ (List.Perm.swap _ _ _))).trans
      (List.Perm.swap _ _ _)

/-- Witness for C8 at a concrete input under mode BOTH. -/
theorem C8_witness :
    generate_audio [sampleRow] "BOTH" =
      Except.ok (audioSpecFrom "BOTH" 0 [sampleRow]) ∧
    (∀ i row, (rowArtifacts "BOTH" i row).length =
      if "BOTH" = "BOTH" then 2 else 1) ∧
    (∀ row, List.Perm (narrationTexts orders_de_en row)
      (narrationTexts orders_en_de row)) :=
  C8_audio_shape [sampleRow] "BOTH" (Or.inr (Or.inr rfl))

/-- Claim C9 counterexample: rendering fails for a text of the first row but
succeeds for every text of the second row; generate_video returns the render
error with no batches at all, so the second row was never assembled and
processing did not continue past the failing row. -/
theorem C9_counterexample :
    generate_video audioLibC renderBadC [rowFailC, rowOkC] 1 "4slides"
        "EN_DE" = ([], some "RenderError: bad") ∧
    (∀ s ∈ ["w2", "e2", "gs2", "es2"], renderBadC s = true) :=
  ⟨rfl, by decide⟩

/-- Claim C9 amended: a rendering failure is not row scoped: the exception
propagates out of generate_video immediately, so when rendering fails for the
first row no batch is emitted, the failing row is not skipped or reported
individually, and no later row is assembled. -/
theorem C9_abort_on_render_failure (audioLib : String → AudioClip)
    (renderOk : String → Bool) (row : Row) (rest : List Row) (wpv : Nat)
    (fmt lv : String) (e : String) (hlv : lv = "EN_DE" ∨ lv = "DE_EN")
    (hfail : rowClips renderOk fmt (videoOrder lv) row
      (audioLib (videoAudioFilename lv 0)) = Except.error e) :
    generate_video audioLib renderOk (row :: rest) wpv fmt lv =
      ([], some e) := by
  unfold generate_video
  rw [if_pos hlv]
  simp [genVideoLoop, hfail]

/-- Witness for the amended C9 at a concrete input. -/
theorem C9_witness :
    generate_video audioLibC renderBadC [rowFailC, rowOkC] 2 "4slides"
        "EN_DE" = ([], some "RenderError: bad") :=
  C9_abort_on_render_failure audioLibC renderBadC rowFailC [rowOkC] 2
    "4slides" "EN_DE" "RenderError: bad" (Or.inl rfl) rfl

/-- Claim C10 counterexample: calling generate_video with the invalid slides
format 3slides and an empty dataframe returns normally: no ValueError is
raised at all, because the slides format is only checked inside the row
loop. -/
theorem C10_counterexample :
    generate_video audioLibC renderTrue [] 10 "3slides" "EN_DE" =
      ([], none) := rfl

/-- Claim C10 amended: generate_audio with an invalid language mode raises
ValueError before any synthesis or file write, for every dataframe including
the empty one; generate_video with an invalid language_version raises
ValueError before any processing, for every dataframe; generate_video with an
invalid slides_format raises ValueError while processing the first row,
before any video file is written, provided the dataframe is nonempty. -/
theorem C10_invalid_arguments :
    (∀ (df : List Row) (mode : String),
      ¬ (mode = "EN_DE" ∨ mode = "DE_EN" ∨ mode = "BOTH") →
      generate_audio df mode =
        Except.error "Invalid language_mode. Should be EN_DE, DE_EN, or BOTH.") ∧
    (∀ (audioLib : String → AudioClip) (renderOk : String → Bool)
      (df : List Row) (wpv : Nat) (fmt lv : String),
      ¬ (lv = "EN_DE" ∨ lv = "DE_EN") →
      generate_video audioLib renderOk df wpv fmt lv =
        ([], some "Invalid language_version. Should be EN_DE or DE_EN.")) ∧
    (∀ (audioLib : String → AudioClip) (renderOk : String → Bool) (row : Row)
      (rest : List Row) (wpv : Nat) (fmt lv : String),
      (lv = "EN_DE" ∨ lv = "DE_EN") → fmt ≠ "2slides" → fmt ≠ "4slides" →
      generate_video audioLib renderOk (row :: rest) wpv fmt lv =
        ([], some "Invalid slides_format. Should be 2slides or 4slides.")) := by
  refine ⟨?_, ?_, ?_⟩
  · intro df mode hmode
    simp [generate_audio, get_orders, hmode]
  · intro audioLib renderOk df wpv fmt lv hlv
    simp [generate_video, hlv]
  · intro audioLib renderOk row rest wpv fmt lv hlv h2 h4
    have hclips : rowClips renderOk fmt (videoOrder lv) row
        (audioLib (videoAudioFilename lv 0)) =
        Except.error "Invalid slides_format. Should be 2slides or 4slides." := by
      unfold rowClips
      rw [if_neg h4, if_neg h2]
    unfold generate_video
    rw [if_pos hlv]
    simp [genVideoLoop, hclips]

/-- Witness for the amended C10: the three invalid-argument behaviours at
concrete inputs. -/
theorem C10_witness :
    generate_audio [sampleRow] "XX" =
      Except.error "Invalid language_mode. Should be EN_DE, DE_EN, or BOTH." ∧
    generate_video audioLibC renderTrue [sampleRow] 1 "2slides" "XX" =
      ([], some "Invalid language_version. Should be EN_DE or DE_EN.") ∧
    generate_video audioLibC renderTrue [sampleRow] 1 "3slides" "EN_DE" =
      ([], some "Invalid slides_format. Should be 2slides or 4slides.") :=
  ⟨C10_invalid_arguments.1 [sampleRow] "XX" (by decide),
   C10_invalid_arguments.2.1 audioLibC renderTrue [sampleRow] 1 "2slides"
     "XX" (by decide),
   C10_invalid_arguments.2.2 audioLibC renderTrue sampleRow [] 1 "3slides"
     "EN_DE" (Or.inl rfl) (by decide) (by decide)⟩
